import Mathlib

/-!
Shallow embedding of the reconciliation-and-readiness core of
`pkg/client/client.go` from the cluster-monitoring-operator repository.

Remote calls are modelled by passing the remote store's responses in as
explicit parameters: a `Get` outcome is an `Except ApiError obj`, a
`Create`/`Update` outcome is an `Option String` error (or an
`Except ApiError obj` when the written object is used afterwards), and a
re-fetch loop receives a stream `Nat → Except ApiError obj` giving the
fetch result of each tick.  Each reconciler returns the trace of API
calls it issued together with the error value it returns, so that call
counts and the exact object handed to `Update` can be stated.
-/

namespace ClusterMonitoring

/-- Error returned by a remote API call.  `notFound` is the case that
Go's `apierrors.IsNotFound` recognises; `other` carries the message of
any other transport or server error. -/
inductive ApiError where
  | notFound
  | other (msg : String)
deriving DecidableEq, Repr

/-- The message a Go `error` renders to; kubernetes not-found errors
render to a message containing "not found". -/
def ApiError.msg : ApiError → String
  | .notFound => "not found"
  | .other m => m

/-- Model of `errors.Wrap(err, msg)` from github.com/pkg/errors:
wrapping `nil` yields `nil`, wrapping an error prefixes the message. -/
def wrap (msg : String) : Option String → Option String
  | none => none
  | some e => some (msg ++ ": " ++ e)

/-- Outcome of a bounded poll. -/
inductive PollResult where
  | ok
  | err (e : String)
  | timedOut
deriving DecidableEq, Repr

/-- Modelled from k8s.io/apimachinery/pkg/util/wait (the `wait.Poll`
loop body, which is external library code): on each tick the condition
is evaluated; a non-nil error stops the poll at once and is returned;
`true` stops with success; otherwise the next tick runs, until the
deadline exhausts the tick budget. -/
def pollAux (cond : Nat → Bool × Option String) : Nat → Nat → PollResult
  | _, 0 => .timedOut
  | i, fuel + 1 =>
    match cond i with
    | (_, some e) => .err e
    | (true, none) => .ok
    | (false, none) => pollAux cond (i + 1) fuel

/-- Modelled from k8s.io/apimachinery/pkg/util/wait: `wait.Poll(interval,
timeout, cond)` evaluates `cond` once per interval until the timeout, so
it runs at most `timeout / interval` ticks. -/
def Poll (interval timeout : Nat) (cond : Nat → Bool × Option String) : PollResult :=
  pollAux cond 0 (timeout / interval)

/-- The message of `wait.ErrWaitTimeout`, returned by `wait.Poll` when
the deadline elapses. -/
def errWaitTimeout : String := "timed out waiting for the condition"

/-- The Go error value a `wait.Poll` call evaluates to. -/
def pollErr : PollResult → Option String
  | .ok => none
  | .err e => some e
  | .timedOut => some errWaitTimeout

/-- Trace entry: one remote API call issued by a reconciler, carrying
the object given to the remote store where there is one. -/
inductive Call (α : Type) where
  | get (name : String)
  | create (obj : α)
  | update (obj : α)
deriving DecidableEq, Repr

def Call.isGet {α : Type} : Call α → Bool
  | .get _ => true
  | _ => false

def Call.isCreate {α : Type} : Call α → Bool
  | .create _ => true
  | _ => false

def Call.isUpdate {α : Type} : Call α → Bool
  | .update _ => true
  | _ => false

/-! ### Object types (the fields the core reads or writes) -/

/-- A `v1.Service`: the reconciler touches its name, version token,
spec type and allocated ClusterIP. -/
structure Service where
  name : String
  resourceVersion : String
  specType : String
  clusterIP : String
deriving DecidableEq, Repr

/-- A `v1.Endpoints`: the reconciler touches its name and version token. -/
structure Endpoints where
  name : String
  resourceVersion : String
deriving DecidableEq, Repr

/-- A `monv1.Prometheus`: the reconciler reads only its name, but we
track the version token to observe that it is never carried over. -/
structure Prometheus where
  name : String
  resourceVersion : String
deriving DecidableEq, Repr

/-- A `v1.ServiceAccount`. -/
structure ServiceAccount where
  name : String
  resourceVersion : String
deriving DecidableEq, Repr

/-- A condition in a CustomResourceDefinition status. -/
structure CRDCondition where
  type : String
  status : String
  reason : String
deriving DecidableEq, Repr

/-- A CustomResourceDefinition: its name and status conditions. -/
structure CRD where
  name : String
  conditions : List CRDCondition
deriving DecidableEq, Repr

/-- An `appsv1.Deployment` with the fields the rollout predicate reads. -/
structure DeploymentStatus where
  observedGeneration : Int
  replicas : Int
  updatedReplicas : Int
  unavailableReplicas : Int
deriving DecidableEq, Repr

structure Deployment where
  name : String
  generation : Int
  status : DeploymentStatus
deriving DecidableEq, Repr

/-- An `appsv1.DaemonSet` with the fields the rollout predicate reads. -/
structure DaemonSetStatus where
  observedGeneration : Int
  desiredNumberScheduled : Int
  updatedNumberScheduled : Int
  numberUnavailable : Int
deriving DecidableEq, Repr

structure DaemonSet where
  name : String
  generation : Int
  status : DaemonSetStatus
deriving DecidableEq, Repr

/-- A condition on a route ingress status entry. -/
structure RouteCondition where
  type : String
  status : String
deriving DecidableEq, Repr

structure RouteIngress where
  conditions : List RouteCondition
deriving DecidableEq, Repr

/-- A `routev1.Route`: spec host and status ingress list. -/
structure Route where
  name : String
  host : String
  ingress : List RouteIngress
deriving DecidableEq, Repr

/-! ### Reconcilers (create-or-update operations)

Each function takes the remote store's responses as parameters — the
`Get` outcome, and the error outcomes of the write it may issue — and
returns the trace of calls it made together with its Go return value. -/

/-- Embedding of `Client.CreateOrUpdateService` (client.go:496-513).
On the found branch the desired object first receives the observed
version token, and, when its spec type is `ClusterIP`, the observed
allocated ClusterIP, before being sent to `Update`. -/
def CreateOrUpdateService (getRes : Except ApiError Service)
    (createErr updateErr : Option String) (svc : Service) :
    List (Call Service) × Option String :=
  match getRes with
  | .error .notFound =>
    ([.get svc.name, .create svc], wrap "creating Service object failed" createErr)
  | .error (.other m) =>
    ([.get svc.name], wrap "retrieving Service object failed" (some m))
  | .ok s =>
    let svc1 := { svc with resourceVersion := s.resourceVersion }
    let svc2 := if svc1.specType == "ClusterIP"
      then { svc1 with clusterIP := s.clusterIP } else svc1
    ([.get svc.name, .update svc2], wrap "updating Service object failed" updateErr)

/-- Embedding of `Client.CreateOrUpdateEndpoints` (client.go:515-529).
The found branch copies the observed version token onto the desired
object before `Update`. -/
def CreateOrUpdateEndpoints (getRes : Except ApiError Endpoints)
    (createErr updateErr : Option String) (e : Endpoints) :
    List (Call Endpoints) × Option String :=
  match getRes with
  | .error .notFound =>
    ([.get e.name, .create e], wrap "creating Endpoints object failed" createErr)
  | .error (.other m) =>
    ([.get e.name], wrap "retrieving Endpoints object failed" (some m))
  | .ok s =>
    let e1 := { e with resourceVersion := s.resourceVersion }
    ([.get e.name, .update e1], wrap "updating Endpoints object failed" updateErr)

/-- Embedding of `Client.CreateOrUpdatePrometheus` (client.go:182-195).
The found branch discards the observed object (`_, err := pclient.Get`)
and sends the caller's object to `Update` unchanged. -/
def CreateOrUpdatePrometheus (getRes : Except ApiError Prometheus)
    (createErr updateErr : Option String) (p : Prometheus) :
    List (Call Prometheus) × Option String :=
  match getRes with
  | .error .notFound =>
    ([.get p.name, .create p], wrap "creating Prometheus object failed" createErr)
  | .error (.other m) =>
    ([.get p.name], wrap "retrieving Prometheus object failed" (some m))
  | .ok _ =>
    ([.get p.name, .update p], wrap "updating Prometheus object failed" updateErr)

/-- Embedding of `Client.CreateOrUpdateServiceAccount` (client.go:591-616).
The found branch returns immediately (`return errors.Wrap(err, ...)` with
`err = nil`); the `Update` call is commented out in the source, so no
update is ever issued. -/
def CreateOrUpdateServiceAccount (getRes : Except ApiError ServiceAccount)
    (createErr : Option String) (sa : ServiceAccount) :
    List (Call ServiceAccount) × Option String :=
  match getRes with
  | .error .notFound =>
    ([.get sa.name, .create sa], wrap "creating ServiceAccount object failed" createErr)
  | .error (.other m) =>
    ([.get sa.name], wrap "retrieving ServiceAccount object failed" (some m))
  | .ok _ =>
    ([.get sa.name], wrap "retrieving ServiceAccount object failed" none)

/-- Embedding of `Client.CreateRouteIfNotExists` (client.go:172-180).
Only the not-found branch acts; any other `Get` outcome — including a
transport error — falls through to `return nil`. -/
def CreateRouteIfNotExists (getRes : Except ApiError Route)
    (createErr : Option String) (r : Route) :
    List (Call Route) × Option String :=
  match getRes with
  | .error .notFound =>
    ([.get r.name, .create r], wrap "creating Route object failed" createErr)
  | .error (.other _) => ([.get r.name], none)
  | .ok _ => ([.get r.name], none)

/-! ### Readiness predicates and polls -/

/-- The `deploymentCreateTimeout` constant (client.go:49): 5 minutes,
in seconds. -/
def deploymentCreateTimeout : Nat := 300

/-- The rollout-poll interval (`time.Second` at client.go:355 and 422),
in seconds. -/
def rolloutPollInterval : Nat := 1

/-- The readiness test at client.go:360. -/
def deploymentRolloutComplete (d : Deployment) : Bool :=
  d.generation ≤ d.status.observedGeneration
    && d.status.updatedReplicas == d.status.replicas
    && d.status.unavailableReplicas == 0

/-- The poll condition of `WaitForDeploymentRollout`: re-fetch the
deployment, surface a fetch error unchanged (`return false, err`),
otherwise report the rollout test. -/
def deploymentRolloutCond (fetch : Nat → Except ApiError Deployment)
    (i : Nat) : Bool × Option String :=
  match fetch i with
  | .error e => (false, some e.msg)
  | .ok d => (deploymentRolloutComplete d, none)

/-- Embedding of `Client.WaitForDeploymentRollout` (client.go:354-365),
over the stream of per-tick fetch results. -/
def WaitForDeploymentRollout (fetch : Nat → Except ApiError Deployment) : PollResult :=
  Poll rolloutPollInterval deploymentCreateTimeout (deploymentRolloutCond fetch)

/-- The readiness test at client.go:427. -/
def daemonSetRolloutComplete (d : DaemonSet) : Bool :=
  d.generation ≤ d.status.observedGeneration
    && d.status.updatedNumberScheduled == d.status.desiredNumberScheduled
    && d.status.numberUnavailable == 0

def daemonSetRolloutCond (fetch : Nat → Except ApiError DaemonSet)
    (i : Nat) : Bool × Option String :=
  match fetch i with
  | .error e => (false, some e.msg)
  | .ok d => (daemonSetRolloutComplete d, none)

/-- Embedding of `Client.WaitForDaemonSetRollout` (client.go:421-432). -/
def WaitForDaemonSetRollout (fetch : Nat → Except ApiError DaemonSet) : PollResult :=
  Poll rolloutPollInterval deploymentCreateTimeout (daemonSetRolloutCond fetch)

/-- Embedding of `Client.CreateDeployment` (client.go:336-352): create,
surface a create error raw, then block on the rollout wait. -/
def CreateDeployment (createRes : Except ApiError Deployment)
    (fetch : Nat → Except ApiError Deployment) : Option String :=
  match createRes with
  | .error e => some e.msg
  | .ok _ => pollErr (WaitForDeploymentRollout fetch)

/-- Embedding of `Client.UpdateDeployment` (client.go:345-352). -/
def UpdateDeployment (updateRes : Except ApiError Deployment)
    (fetch : Nat → Except ApiError Deployment) : Option String :=
  match updateRes with
  | .error e => some e.msg
  | .ok _ => pollErr (WaitForDeploymentRollout fetch)

/-- Embedding of `Client.CreateOrUpdateDeployment` (client.go:322-334). -/
def CreateOrUpdateDeployment (getRes createRes updateRes : Except ApiError Deployment)
    (fetch : Nat → Except ApiError Deployment) : Option String :=
  match getRes with
  | .error .notFound =>
    wrap "creating deployment object failed" (CreateDeployment createRes fetch)
  | .error (.other m) =>
    wrap "retrieving deployment object failed" (some m)
  | .ok _ =>
    wrap "updating deployment object failed" (UpdateDeployment updateRes fetch)

/-- Embedding of `Client.CreateDaemonSet` (client.go:403-410). -/
def CreateDaemonSet (createRes : Except ApiError DaemonSet)
    (fetch : Nat → Except ApiError DaemonSet) : Option String :=
  match createRes with
  | .error e => some e.msg
  | .ok _ => pollErr (WaitForDaemonSetRollout fetch)

/-- Embedding of `Client.UpdateDaemonSet` (client.go:412-419). -/
def UpdateDaemonSet (updateRes : Except ApiError DaemonSet)
    (fetch : Nat → Except ApiError DaemonSet) : Option String :=
  match updateRes with
  | .error e => some e.msg
  | .ok _ => pollErr (WaitForDaemonSetRollout fetch)

/-- Embedding of `Client.CreateOrUpdateDaemonSet` (client.go:389-401). -/
def CreateOrUpdateDaemonSet (getRes createRes updateRes : Except ApiError DaemonSet)
    (fetch : Nat → Except ApiError DaemonSet) : Option String :=
  match getRes with
  | .error .notFound =>
    wrap "creating DaemonSet object failed" (CreateDaemonSet createRes fetch)
  | .error (.other m) =>
    wrap "retrieving DaemonSet object failed" (some m)
  | .ok _ =>
    wrap "updating DaemonSet object failed" (UpdateDaemonSet updateRes fetch)

/-- The condition scan of `Client.CRDReady` (client.go:661-672): walk
the status conditions in order; an `Established` condition with status
`True` returns ready; a `NamesAccepted` condition with status `False`
returns the naming-conflict error; anything else is skipped. -/
def crdScan (name : String) : List CRDCondition → Bool × Option String
  | [] => (false, none)
  | c :: rest =>
    if c.type == "Established" then
      if c.status == "True" then (true, none) else crdScan name rest
    else if c.type == "NamesAccepted" then
      if c.status == "False" then
        (false, some ("CRD naming conflict (" ++ name ++ "): " ++ c.reason))
      else crdScan name rest
    else crdScan name rest

/-- Embedding of `Client.CRDReady` (client.go:654-674): a failed fetch
(not-found included) surfaces its error; otherwise the condition list of
the fetched CRD is scanned. -/
def CRDReady (getRes : Except ApiError CRD) (name : String) : Bool × Option String :=
  match getRes with
  | .error e => (false, some e.msg)
  | .ok crd => crdScan name crd.conditions

/-- The CRD-poll interval (`5*time.Second`, client.go:649), in seconds. -/
def crdPollInterval : Nat := 5

/-- The CRD-poll deadline (`5*time.Minute`, client.go:649), in seconds. -/
def crdPollTimeout : Nat := 300

/-- Embedding of `Client.WaitForCRDReady` (client.go:648-652). -/
def WaitForCRDReady (fetch : Nat → Except ApiError CRD) (name : String) : PollResult :=
  Poll crdPollInterval crdPollTimeout (fun i => CRDReady (fetch i) name)

/-- Embedding of `Client.WaitForPrometheusOperatorCRDsReady`
(client.go:119-155): the `wait.Poll` call's result is not assigned
(`wait.Poll(...)` on a line of its own), and the function returns `nil`
unconditionally.  `cond` stands for the per-tick outcome of the inner
CRD waits and list calls. -/
def WaitForPrometheusOperatorCRDsReady (cond : Nat → Bool × Option String) :
    Option String :=
  let _ := Poll 1 300 cond
  none

/-- The admission test of `Client.WaitForRouteReady` (client.go:377-382)
on one fetched route: false while the ingress list is empty, else true
iff the first entry's conditions contain type `Admitted` with status
`True`. -/
def routeAdmitted (r : Route) : Bool :=
  match r.ingress with
  | [] => false
  | i :: _ => i.conditions.any (fun c => c.type == "Admitted" && c.status == "True")

/-- One tick of `WaitForRouteReady`: a fetch error is surfaced raw; on
success the admission test runs, and the route's spec host is recorded
only when it passes. -/
def routeReadyCond (fetch : Nat → Except ApiError Route) (i : Nat) :
    Bool × Option String :=
  match fetch i with
  | .error e => (false, some e.msg)
  | .ok r => (routeAdmitted r, none)

/-- The host value `WaitForRouteReady` returns: `""` initially, set to
the fetched route's spec host exactly when a tick passes the admission
test (the same tick on which the poll returns ready). -/
def routeReadyHost (fetch : Nat → Except ApiError Route) : Nat → Nat → String
  | _, 0 => ""
  | i, fuel + 1 =>
    match fetch i with
    | .error _ => ""
    | .ok r => if routeAdmitted r then r.host else routeReadyHost fetch (i + 1) fuel

/-- Embedding of `Client.WaitForRouteReady` (client.go:367-387): a
`wait.Poll` at 1s interval under `deploymentCreateTimeout`, returning
the captured host together with the poll outcome. -/
def WaitForRouteReady (fetch : Nat → Except ApiError Route) : String × PollResult :=
  (routeReadyHost fetch 0 (deploymentCreateTimeout / rolloutPollInterval),
   Poll rolloutPollInterval deploymentCreateTimeout (routeReadyCond fetch))

/-! ### Deletion paths -/

/-- Embedding of `Client.DeleteDeployment` (client.go:227-235): a
foreground-propagation delete; not-found is success; any other error is
returned raw (unwrapped). -/
def DeleteDeployment (deleteRes : Option ApiError) : Option String :=
  match deleteRes with
  | some .notFound => none
  | some (.other m) => some m
  | none => none

/-- Embedding of `Client.DeleteDaemonSet` (client.go:260-268). -/
def DeleteDaemonSet (deleteRes : Option ApiError) : Option String :=
  match deleteRes with
  | some .notFound => none
  | some (.other m) => some m
  | none => none

/-- Embedding of `Client.DeleteServiceMonitor` (client.go:270-280):
not-found is success, other errors are wrapped. -/
def DeleteServiceMonitor (deleteRes : Option ApiError) : Option String :=
  match deleteRes with
  | some (.other m) => some ("deleting ServiceMonitor object failed: " ++ m)
  | _ => none

/-- The pod-removal poll interval (`time.Second*10`, client.go:245), in
seconds. -/
def prometheusPodPollInterval : Nat := 10

/-- The pod-removal poll deadline (`time.Minute*10`, client.go:245), in
seconds. -/
def prometheusPodPollTimeout : Nat := 600

/-- One tick of the pod-removal poll (client.go:245-255): list the pods
matching the Prometheus-generated label selector for `p`; a list error
is wrapped and surfaced; otherwise ready iff the listing is empty. -/
def prometheusPodsGoneCond (listings : Nat → Except ApiError (List String))
    (i : Nat) : Bool × Option String :=
  match listings i with
  | .error e => (false, some ("retrieving pods during polling failed: " ++ e.msg))
  | .ok pods => (pods.isEmpty, none)

/-- Embedding of `Client.DeletePrometheus` (client.go:237-258): delete
(not-found tolerated, other errors wrapped and returned), then poll the
pod listing for the resource's generated label selector until empty;
the poll's error, wrapped, is the return value.  `listings i` is the
result of the tick-`i` pod `List` call under that selector. -/
def DeletePrometheus (deleteRes : Option ApiError)
    (listings : Nat → Except ApiError (List String)) : Option String :=
  match deleteRes with
  | some (.other m) => some ("deleting Prometheus object failed: " ++ m)
  | _ =>
    wrap "waiting for Prometheus Pods to be gone failed"
      (pollErr (Poll prometheusPodPollInterval prometheusPodPollTimeout
        (prometheusPodsGoneCond listings)))

/-! ### Concrete fixtures used by scenario theorems -/

/-- A CRD condition that triggers neither scan rule. -/
def crdInert (c : CRDCondition) : Prop :=
  ¬(c.type = "Established" ∧ c.status = "True") ∧
  ¬(c.type = "NamesAccepted" ∧ c.status = "False")

/-- Fetch stream for the poll-abort scenario: a transport error on the
first tick, a fully rolled out deployment on every later tick. -/
def fetchErrThenReady : Nat → Except ApiError Deployment := fun i =>
  if i = 0 then .error (.other "transport error")
  else .ok ⟨"kube-state-metrics", 1, ⟨1, 3, 3, 0⟩⟩

/-- Fetch stream for the route-admission scenario: an empty
ingress-status list on the first tick, an admitted route with spec host
"example.test" afterwards. -/
def fetchRouteScenario : Nat → Except ApiError Route := fun i =>
  if i = 0 then .ok ⟨"alertmanager-main", "example.test", []⟩
  else .ok ⟨"alertmanager-main", "example.test", [⟨[⟨"Admitted", "True"⟩]⟩]⟩

/-- A pod-listing stream that is empty on every tick, as after deleting
an absent resource. -/
def emptyListings : Nat → Except ApiError (List String) := fun _ => .ok []

/-- Fetch stream for the rollout scenario of the spec: first the lagging
status, then the converged one. -/
def fetchRolloutScenario : Nat → Except ApiError Deployment := fun i =>
  if i = 0 then .ok ⟨"node-exporter", 2, ⟨1, 3, 2, 1⟩⟩
  else .ok ⟨"node-exporter", 2, ⟨2, 3, 3, 0⟩⟩

/-! ### Helper lemmas about the poll primitive -/

theorem pollAux_err_now (cond : Nat → Bool × Option String) (i fuel : Nat)
    (b : Bool) (e : String) (hc : cond i = (b, some e)) (hf : 0 < fuel) :
    pollAux cond i fuel = .err e := by
  cases fuel with
  | zero => omega
  | succ n => simp [pollAux, hc]

theorem pollAux_ok_exists (cond : Nat → Bool × Option String) :
    ∀ (fuel i : Nat), pollAux cond i fuel = .ok →
      ∃ j, i ≤ j ∧ j < i + fuel ∧ cond j = (true, none) ∧
        ∀ k, i ≤ k → k < j → cond k = (false, none) := by
  intro fuel
  induction fuel with
  | zero => intro i h; simp [pollAux] at h
  | succ n ih =>
    intro i h
    rw [pollAux] at h
    rcases hc : cond i with ⟨b, oe⟩
    rw [hc] at h
    cases oe with
    | some e => simp at h
    | none =>
      cases b with
      | true =>
        exact ⟨i, le_refl i, by omega, hc, fun k hk1 hk2 => absurd hk1 (by omega)⟩
      | false =>
        obtain ⟨j, hij, hjf, hcj, hall⟩ := ih (i + 1) h
        refine ⟨j, by omega, by omega, hcj, fun k hk1 hk2 => ?_⟩
        by_cases hk : k = i
        · exact hk ▸ hc
        · exact hall k (by omega) hk2

theorem pollAux_step (cond : Nat → Bool × Option String) (i fuel : Nat)
    (hc : cond i = (false, none)) :
    pollAux cond i (fuel + 1) = pollAux cond (i + 1) fuel := by
  simp [pollAux, hc]

theorem pollAux_pending (cond : Nat → Bool × Option String)
    (h : ∀ j, cond j = (false, none)) :
    ∀ (fuel i : Nat), pollAux cond i fuel = .timedOut := by
  intro fuel
  induction fuel with
  | zero => intro i; simp [pollAux]
  | succ n ih => intro i; rw [pollAux_step cond i n (h i)]; exact ih (i + 1)

theorem routeReadyHost_never (fetch : Nat → Except ApiError Route)
    (h : ∀ i r, fetch i = .ok r → routeAdmitted r = false) :
    ∀ (fuel i : Nat), routeReadyHost fetch i fuel = "" := by
  intro fuel
  induction fuel with
  | zero => intro i; rfl
  | succ n ih =>
    intro i
    rw [routeReadyHost]
    rcases hf : fetch i with e | r
    · rfl
    · simp [h i r hf, ih (i + 1)]

theorem crdScan_skips_inert (name : String) :
    ∀ (pre rest : List CRDCondition), (∀ x ∈ pre, crdInert x) →
      crdScan name (pre ++ rest) = crdScan name rest := by
  intro pre
  induction pre with
  | nil => intro rest _; rfl
  | cons c pre ih =>
    intro rest hpre
    obtain ⟨h1, h2⟩ := hpre c (List.mem_cons_self c pre)
    have hrec := ih rest (fun x hx => hpre x (List.mem_cons_of_mem c hx))
    simp only [List.cons_append, crdScan]
    by_cases he : c.type = "Established"
    · have hs : ¬c.status = "True" := fun hs => h1 ⟨he, hs⟩
      simp [he, hs, hrec]
    · by_cases hn : c.type = "NamesAccepted"
      · have hs : ¬c.status = "False" := fun hs => h2 ⟨hn, hs⟩
        simp [he, hn, hs, hrec]
      · simp [he, hn, hrec]

/-! ### Claim theorems -/

/-- Claim C1, counterexample: reconciling a present Prometheus passes
the caller's object to `Update` unchanged — its version token is the
caller's empty string, not the `"v1"` returned by `Get` — so the
version-token carryover does not hold for every standard-policy kind. -/
theorem createOrUpdatePrometheus_version_counterexample :
    (CreateOrUpdatePrometheus (Except.ok ⟨"k8s", "v1"⟩) none none ⟨"k8s", ""⟩).fst
      = [Call.get "k8s", Call.update ⟨"k8s", ""⟩]
    ∧ (Prometheus.mk "k8s" "").resourceVersion ≠ (Prometheus.mk "k8s" "v1").resourceVersion := by
  exact ⟨rfl, by decide⟩

/-- Claim C1, amended: reconciling a present identity issues exactly one
Get, zero Create and one Update for each standard-policy kind, but the
version token is carried over only by the Service and Endpoints
reconcilers (Service additionally carries the observed ClusterIP when
the desired spec type is ClusterIP); the Prometheus reconciler passes
the desired object to Update unchanged. -/
theorem createOrUpdate_present_trace :
    (∀ (s svc : Service) (ce ue : Option String),
      CreateOrUpdateService (.ok s) ce ue svc =
        ([.get svc.name,
          .update { svc with
            resourceVersion := s.resourceVersion,
            clusterIP := if svc.specType == "ClusterIP" then s.clusterIP
              else svc.clusterIP }],
         wrap "updating Service object failed" ue))
  ∧ (∀ (s e : Endpoints) (ce ue : Option String),
      CreateOrUpdateEndpoints (.ok s) ce ue e =
        ([.get e.name, .update { e with resourceVersion := s.resourceVersion }],
         wrap "updating Endpoints object failed" ue))
  ∧ (∀ (s p : Prometheus) (ce ue : Option String),
      CreateOrUpdatePrometheus (.ok s) ce ue p =
        ([.get p.name, .update p], wrap "updating Prometheus object failed" ue)) := by
  refine ⟨fun s svc ce ue => ?_, fun s e ce ue => rfl, fun s p ce ue => rfl⟩
  simp only [CreateOrUpdateService]
  by_cases h : svc.specType == "ClusterIP"
  · simp [h]
  · simp [h]

/-- Claim C2, counterexample: with the status conditions listing
`Established=True` before `NamesAccepted=False`, `CRDReady` returns
ready with no error, so a Fatal naming-conflict error is not returned
"whenever" the NamesAccepted condition is explicitly False. -/
theorem crdReady_names_counterexample :
    CRDReady (Except.ok ⟨"prometheuses.monitoring.coreos.com",
        [⟨"Established", "True", ""⟩, ⟨"NamesAccepted", "False", "conflict"⟩]⟩)
      "prometheuses.monitoring.coreos.com" = (true, none)
    ∧ (⟨"NamesAccepted", "False", "conflict"⟩ : CRDCondition)
        ∈ [(⟨"Established", "True", ""⟩ : CRDCondition),
           ⟨"NamesAccepted", "False", "conflict"⟩] := by
  exact ⟨rfl, by decide⟩

/-- Claim C2, amended: the condition list is scanned in order and the
first matching rule wins.  An `Established=True` condition preceded only
by inert conditions yields Ready; a `NamesAccepted=False` condition
preceded only by inert conditions yields a Fatal naming-conflict error
that names the CRD and the condition's reason; such an error aborts the
poll on the very tick it occurs — including the first — and is a
`PollResult.err`, distinct by construction from `PollResult.timedOut`. -/
theorem crdReady_established_and_conflict
    (name : String) (pre post : List CRDCondition) (c : CRDCondition)
    (hpre : ∀ x ∈ pre, crdInert x) :
    (c.type = "Established" → c.status = "True" →
      crdScan name (pre ++ c :: post) = (true, none))
  ∧ (c.type = "NamesAccepted" → c.status = "False" →
      crdScan name (pre ++ c :: post)
        = (false, some ("CRD naming conflict (" ++ name ++ "): " ++ c.reason)))
  ∧ (∀ (fetch : Nat → Except ApiError CRD) (b : Bool) (e : String),
      CRDReady (fetch 0) name = (b, some e) →
        WaitForCRDReady fetch name = PollResult.err e)
  ∧ (∀ e : String, PollResult.err e ≠ PollResult.timedOut) := by
  refine ⟨fun ht hs => ?_, fun ht hs => ?_, fun fetch b e hc => ?_, fun e h => by cases h⟩
  · rw [crdScan_skips_inert name pre (c :: post) hpre]
    simp [crdScan, ht, hs]
  · rw [crdScan_skips_inert name pre (c :: post) hpre]
    simp [crdScan, ht, hs]
  · exact pollAux_err_now _ 0 _ b e hc (by norm_num [crdPollTimeout, crdPollInterval])

/-- Claim C2, witness: a CRD whose only condition is
`NamesAccepted=False` makes the very first tick of `WaitForCRDReady`
abort with the naming-conflict error. -/
theorem crdReady_established_and_conflict_witness :
    WaitForCRDReady
        (fun _ => Except.ok ⟨"alertmanagers.monitoring.coreos.com",
          [⟨"NamesAccepted", "False", "ListKindConflict"⟩]⟩)
        "alertmanagers.monitoring.coreos.com"
      = PollResult.err
          ("CRD naming conflict (alertmanagers.monitoring.coreos.com): ListKindConflict") := by
  exact (crdReady_established_and_conflict "alertmanagers.monitoring.coreos.com"
      [] [] ⟨"NamesAccepted", "False", "ListKindConflict"⟩
      (fun x hx => absurd hx (List.not_mem_nil x))).2.2.1
    (fun _ => Except.ok ⟨"alertmanagers.monitoring.coreos.com",
      [⟨"NamesAccepted", "False", "ListKindConflict"⟩]⟩) false _ rfl

/-- Claim C3, counterexample: the deployment-rollout poll receives a
transport error on its first tick and a predicate that would be ready on
the second tick, yet the poll aborts at once with the error instead of
treating the tick as Pending and polling on until the deadline. -/
theorem poll_pending_on_error_counterexample :
    WaitForDeploymentRollout fetchErrThenReady = PollResult.err "transport error"
    ∧ deploymentRolloutCond fetchErrThenReady 1 = (true, none) := by
  exact ⟨rfl, by decide⟩

/-- Claim C3, amended: the poller makes no Pending-with-error policy and
no fatal/ordinary distinction — any error returned by the predicate on a
tick aborts the poll immediately with that error, and the poll consumes
further ticks only while the predicate returns (not-ready, nil); in
particular a transport error while re-fetching the deployment on the
first tick aborts `WaitForDeploymentRollout` at once. -/
theorem poll_aborts_on_any_error :
    (∀ (cond : Nat → Bool × Option String) (i fuel : Nat) (b : Bool) (e : String),
      cond i = (b, some e) → 0 < fuel → pollAux cond i fuel = PollResult.err e)
  ∧ (∀ (cond : Nat → Bool × Option String) (i fuel : Nat),
      cond i = (false, none) → pollAux cond i (fuel + 1) = pollAux cond (i + 1) fuel)
  ∧ (∀ (fetch : Nat → Except ApiError Deployment) (e : ApiError),
      fetch 0 = .error e → WaitForDeploymentRollout fetch = PollResult.err e.msg) := by
  refine ⟨pollAux_err_now, pollAux_step, fun fetch e hf => ?_⟩
  refine pollAux_err_now _ 0 _ false e.msg ?_ (by norm_num [deploymentCreateTimeout, rolloutPollInterval])
  simp [deploymentRolloutCond, hf]

/-- Claim C3, witness: instantiating the abort lemma on the concrete
error-then-ready fetch stream. -/
theorem poll_aborts_on_any_error_witness :
    WaitForDeploymentRollout fetchErrThenReady = PollResult.err "transport error" := by
  exact poll_aborts_on_any_error.2.2 fetchErrThenReady (.other "transport error") rfl

/-- Claim C4: evaluation at the failing inputs.  A non-not-found error
from the route `Get` makes `CreateRouteIfNotExists` return nil, silently
swallowing the error; and `WaitForPrometheusOperatorCRDsReady` discards
its poll's outcome and returns nil unconditionally, even when every tick
reports an error; `DeleteDeployment` surfaces a delete error raw, with
no operation or kind context prepended. -/
theorem error_swallowed_failing_inputs :
    CreateRouteIfNotExists (Except.error (ApiError.other "connection refused"))
        none ⟨"alertmanager-main", "", []⟩
      = ([Call.get "alertmanager-main"], none)
    ∧ (∀ cond, WaitForPrometheusOperatorCRDsReady cond = none)
    ∧ WaitForPrometheusOperatorCRDsReady (fun _ => (false, some "listing Prometheuses failed"))
      = none
    ∧ DeleteDeployment (some (ApiError.other "connection refused"))
      = some "connection refused" := by
  exact ⟨rfl, fun cond => rfl, rfl, rfl⟩

/-- Claim C5: for the ServiceAccount kind, reconciling a present
identity issues exactly one Get and nothing else — the trace holds no
Update (and no Create) regardless of any difference between the desired
and the observed object — and in fact no branch of the reconciler ever
issues an Update. -/
theorem serviceAccount_never_updates :
    (∀ (s sa : ServiceAccount) (ce : Option String),
      CreateOrUpdateServiceAccount (.ok s) ce sa = ([.get sa.name], none))
  ∧ (∀ (getRes : Except ApiError ServiceAccount) (ce : Option String)
        (sa : ServiceAccount),
      ((CreateOrUpdateServiceAccount getRes ce sa).fst.filter Call.isUpdate) = []) := by
  refine ⟨fun s sa ce => rfl, fun getRes ce sa => ?_⟩
  rcases getRes with e | s
  · rcases e with _ | m <;> simp [CreateOrUpdateServiceAccount, Call.isUpdate]
  · simp [CreateOrUpdateServiceAccount, Call.isUpdate]

/-- Claim C6: the deployment-rollout predicate is ready exactly when
generation ≤ observedGeneration, updatedReplicas equals the status
replica count, and unavailableReplicas is zero; the spec's scenario —
generation 2, observedGeneration 1, updatedReplicas 2, unavailable 1,
replicas 3 — is pending, the converged follow-up status is ready, and
a poll over that two-fetch stream returns ok. -/
theorem deployment_rollout_predicate :
    (∀ d : Deployment,
      deploymentRolloutComplete d = true ↔
        (d.generation ≤ d.status.observedGeneration ∧
         d.status.updatedReplicas = d.status.replicas ∧
         d.status.unavailableReplicas = 0))
  ∧ deploymentRolloutComplete ⟨"node-exporter", 2, ⟨1, 3, 2, 1⟩⟩ = false
  ∧ deploymentRolloutComplete ⟨"node-exporter", 2, ⟨2, 3, 3, 0⟩⟩ = true
  ∧ WaitForDeploymentRollout fetchRolloutScenario = PollResult.ok := by
  refine ⟨fun d => ?_, by decide, by decide, rfl⟩
  simp [deploymentRolloutComplete, Bool.and_eq_true, decide_eq_true_eq, beq_iff_eq,
    and_assoc]

/-- Claim C7: the route-admission predicate is false while the
ingress-status list is empty; once non-empty it is true exactly when the
first entry's conditions contain type "Admitted" with status "True"; a
stream whose every fetch has an empty ingress list times out with host
""; and the spec's scenario — empty list on tick one, an admitted route
with spec host "example.test" on tick two — returns the pair
("example.test", ok). -/
theorem route_admission_predicate :
    (∀ r : Route, r.ingress = [] → routeAdmitted r = false)
  ∧ (∀ (r : Route) (i : RouteIngress) (rest : List RouteIngress),
      r.ingress = i :: rest →
        (routeAdmitted r = true ↔
          ∃ c ∈ i.conditions, c.type = "Admitted" ∧ c.status = "True"))
  ∧ WaitForRouteReady (fun _ => .ok ⟨"alertmanager-main", "example.test", []⟩)
      = ("", PollResult.timedOut)
  ∧ WaitForRouteReady fetchRouteScenario = ("example.test", PollResult.ok) := by
  refine ⟨fun r h => by simp [routeAdmitted, h], fun r i rest h => ?_, ?_, rfl⟩
  · simp [routeAdmitted, h, List.any_eq_true, Bool.and_eq_true, beq_iff_eq]
  · simp only [WaitForRouteReady, Poll, Prod.mk.injEq]
    refine ⟨routeReadyHost_never _ (fun i r hr => ?_) _ _,
      pollAux_pending _ (fun j => ?_) _ _⟩
    · cases hr
      rfl
    · rfl

/-- Claim C7, witness: the empty-ingress route evaluates to not
admitted, via the predicate lemma at a concrete route. -/
theorem route_admission_predicate_witness :
    routeAdmitted ⟨"alertmanager-main", "example.test", []⟩ = false := by
  exact route_admission_predicate.1 ⟨"alertmanager-main", "example.test", []⟩ rfl

/-- Claim C8: each delete operation returns success when the remote
store reports not-found; for the Prometheus kind, whose delete is
followed by the pod-removal poll, success also needs the pod listing
for the absent resource to come back empty (which an absent identity
guarantees), and then the very first tick ends the poll. -/
theorem delete_absent_is_success :
    DeleteDeployment (some ApiError.notFound) = none
  ∧ DeleteDaemonSet (some ApiError.notFound) = none
  ∧ DeleteServiceMonitor (some ApiError.notFound) = none
  ∧ (∀ listings : Nat → Except ApiError (List String),
      listings 0 = Except.ok [] →
        DeletePrometheus (some ApiError.notFound) listings = none) := by
  refine ⟨rfl, rfl, rfl, fun listings h0 => ?_⟩
  have hc : prometheusPodsGoneCond listings 0 = (true, none) := by
    simp [prometheusPodsGoneCond, h0]
  simp [DeletePrometheus, Poll, prometheusPodPollInterval, prometheusPodPollTimeout,
    pollAux, hc, pollErr, wrap]

/-- Claim C8, witness: deleting an absent Prometheus with an empty pod
listing succeeds. -/
theorem delete_absent_is_success_witness :
    DeletePrometheus (some ApiError.notFound) (fun _ => Except.ok []) = none := by
  exact delete_absent_is_success.2.2.2 (fun _ => Except.ok []) rfl

/-- Claim C9: the pod-removal poll after a Prometheus delete runs at a
10-second interval under a 10-minute deadline, and the delete call
returns success only when some tick within the budget observed an empty
pod listing — every listing observed before that tick was non-empty, so
success is never reported while matching pods remain. -/
theorem delete_prometheus_waits_for_pods :
    prometheusPodPollInterval = 10 ∧ prometheusPodPollTimeout = 600
  ∧ (∀ (deleteRes : Option ApiError)
        (listings : Nat → Except ApiError (List String)),
      DeletePrometheus deleteRes listings = none →
        ∃ j, j < prometheusPodPollTimeout / prometheusPodPollInterval ∧
          listings j = Except.ok [] ∧
          ∀ k, k < j → ∃ pods, listings k = Except.ok pods ∧ pods ≠ []) := by
  refine ⟨rfl, rfl, fun deleteRes listings h => ?_⟩
  have hwrap : ∀ P : PollResult,
      wrap "waiting for Prometheus Pods to be gone failed" (pollErr P) = none →
        P = .ok := by
    intro P hP
    cases P <;> simp_all [pollErr, wrap]
  have hok : pollAux (prometheusPodsGoneCond listings) 0
      (prometheusPodPollTimeout / prometheusPodPollInterval) = .ok := by
    rcases deleteRes with _ | e
    · exact hwrap _ (by simpa [DeletePrometheus, Poll] using h)
    · rcases e with _ | m
      · exact hwrap _ (by simpa [DeletePrometheus, Poll] using h)
      · simp [DeletePrometheus] at h
  obtain ⟨j, _, hjf, hcj, hall⟩ := pollAux_ok_exists _ _ 0 hok
  have hparse : ∀ k b, prometheusPodsGoneCond listings k = (b, none) →
      ∃ pods, listings k = Except.ok pods ∧ pods.isEmpty = b := by
    intro k b hk
    rcases hl : listings k with e | pods
    · simp [prometheusPodsGoneCond, hl] at hk
    · refine ⟨pods, rfl, ?_⟩
      simpa [prometheusPodsGoneCond, hl] using hk
  obtain ⟨pods, hlj, hempty⟩ := hparse j true hcj
  refine ⟨j, by omega, ?_, fun k hk => ?_⟩
  · rcases pods with _ | ⟨p, ps⟩
    · exact hlj
    · simp at hempty
  · obtain ⟨pods', hlk, hempty'⟩ := hparse k false (hall k (Nat.zero_le k) hk)
    refine ⟨pods', hlk, ?_⟩
    rcases pods' with _ | ⟨p, ps⟩
    · simp at hempty'
    · simp

/-- Claim C9, witness: with every listing empty, the poll succeeds at
tick 0 and the conclusion holds there. -/
theorem delete_prometheus_waits_for_pods_witness :
    DeletePrometheus none emptyListings = none ∧
    ∃ j, j < prometheusPodPollTimeout / prometheusPodPollInterval ∧
      emptyListings j = Except.ok [] ∧
      ∀ k, k < j → ∃ pods, emptyListings k = Except.ok pods ∧ pods ≠ [] := by
  have hdel : DeletePrometheus none emptyListings = none := by
    simp [DeletePrometheus, Poll, prometheusPodPollInterval,
      prometheusPodPollTimeout, pollAux, prometheusPodsGoneCond, emptyListings,
      pollErr, wrap]
  exact ⟨hdel, delete_prometheus_waits_for_pods.2.2 none emptyListings hdel⟩

/-- Claim C10: the deployment and daemon-set reconcilers block on the
rollout poll (interval 1s, deadline `deploymentCreateTimeout` = 5 min):
on either branch they return success exactly when the write succeeded
and the rollout wait reported ready, and the write step hands the poll's
error through unchanged. -/
theorem createOrUpdate_blocks_on_rollout :
    rolloutPollInterval = 1 ∧ deploymentCreateTimeout = 300
  ∧ (∀ (d : Deployment) (fetch : Nat → Except ApiError Deployment),
      CreateDeployment (.ok d) fetch = pollErr (WaitForDeploymentRollout fetch)
      ∧ UpdateDeployment (.ok d) fetch = pollErr (WaitForDeploymentRollout fetch))
  ∧ (∀ (cr ur : Except ApiError Deployment)
        (fetch : Nat → Except ApiError Deployment),
      CreateOrUpdateDeployment (.error .notFound) cr ur fetch = none ↔
        (∃ d, cr = .ok d) ∧ WaitForDeploymentRollout fetch = .ok)
  ∧ (∀ (s : Deployment) (cr ur : Except ApiError Deployment)
        (fetch : Nat → Except ApiError Deployment),
      CreateOrUpdateDeployment (.ok s) cr ur fetch = none ↔
        (∃ d, ur = .ok d) ∧ WaitForDeploymentRollout fetch = .ok)
  ∧ (∀ (cr ur : Except ApiError DaemonSet)
        (fetch : Nat → Except ApiError DaemonSet),
      CreateOrUpdateDaemonSet (.error .notFound) cr ur fetch = none ↔
        (∃ d, cr = .ok d) ∧ WaitForDaemonSetRollout fetch = .ok)
  ∧ (∀ (s : DaemonSet) (cr ur : Except ApiError DaemonSet)
        (fetch : Nat → Except ApiError DaemonSet),
      CreateOrUpdateDaemonSet (.ok s) cr ur fetch = none ↔
        (∃ d, ur = .ok d) ∧ WaitForDaemonSetRollout fetch = .ok) := by
  have hwrapOk : ∀ (msg : String) (P : PollResult),
      wrap msg (pollErr P) = none ↔ P = .ok := by
    intro msg P
    cases P <;> simp [pollErr, wrap]
  refine ⟨rfl, rfl, fun d fetch => ⟨rfl, rfl⟩, fun cr ur fetch => ?_,
    fun s cr ur fetch => ?_, fun cr ur fetch => ?_, fun s cr ur fetch => ?_⟩
  · rcases cr with e | d
    · simp [CreateOrUpdateDeployment, CreateDeployment, wrap]
    · simp [CreateOrUpdateDeployment, CreateDeployment, hwrapOk]
  · rcases ur with e | d
    · simp [CreateOrUpdateDeployment, UpdateDeployment, wrap]
    · simp [CreateOrUpdateDeployment, UpdateDeployment, hwrapOk]
  · rcases cr with e | d
    · simp [CreateOrUpdateDaemonSet, CreateDaemonSet, wrap]
    · simp [CreateOrUpdateDaemonSet, CreateDaemonSet, hwrapOk]
  · rcases ur with e | d
    · simp [CreateOrUpdateDaemonSet, UpdateDaemonSet, wrap]
    · simp [CreateOrUpdateDaemonSet, UpdateDaemonSet, hwrapOk]

end ClusterMonitoring
